import Mathlib

/-
  Verification of the filter-state and query-synchronization core of the
  Aadhaar Intelligence System dashboard.

  The definitions below are a shallow embedding of the TypeScript source:
    - the useFilters hook (filter state, setters, buildQueryString,
      filteredDistricts, fetchOptions fallback handling),
    - the Header search effect threshold logic,
    - the debounced input controller.
  JavaScript truthiness tests such as `if (filters.state)` are embedded
  explicitly: an empty string and the number 0 count as falsy.
-/

/-- Metric type enumeration from types.ts: Enrolment, Biometric, Demographic. -/
inductive MetricType where
  | Enrolment
  | Biometric
  | Demographic
deriving DecidableEq, Repr

/-- Wire string of a metric type, exactly the TypeScript union literals. -/
def MetricType.toWire : MetricType → String
  | .Enrolment => "Enrolment"
  | .Biometric => "Biometric"
  | .Demographic => "Demographic"

/-- Age group enumeration from types.ts: All, 0-5, 5-18, 18-60, 60+. -/
inductive AgeGroup where
  | All
  | A0to5
  | A5to18
  | A18to60
  | A60plus
deriving DecidableEq, Repr

/-- Wire string of an age group, exactly the TypeScript union literals. -/
def AgeGroup.toWire : AgeGroup → String
  | .All => "All"
  | .A0to5 => "0-5"
  | .A5to18 => "5-18"
  | .A18to60 => "18-60"
  | .A60plus => "60+"

/-- Index type enumeration from types.ts: Demand, Stress, Gap, CompositeRisk. -/
inductive IndexType where
  | Demand
  | Stress
  | Gap
  | CompositeRisk
deriving DecidableEq, Repr

/-- Wire string of an index type, exactly the TypeScript union literals. -/
def IndexType.toWire : IndexType → String
  | .Demand => "Demand"
  | .Stress => "Stress"
  | .Gap => "Gap"
  | .CompositeRisk => "CompositeRisk"

/-- An entry of FilterOptions.states: code and name. -/
structure StateOption where
  code : String
  name : String
deriving DecidableEq, Repr

/-- An entry of FilterOptions.districts: code, name and parent state code. -/
structure DistrictOption where
  code : String
  name : String
  stateCode : String
deriving DecidableEq, Repr

/-- An entry of FilterOptions.months: ordinal value and label. -/
structure MonthOption where
  value : Nat
  label : String
deriving DecidableEq, Repr

/-- FilterOptions from types.ts: the catalog of legal filter values. -/
structure FilterOptions where
  states : List StateOption
  districts : List DistrictOption
  years : List Nat
  months : List MonthOption
  metricTypes : List MetricType
  ageGroups : List AgeGroup
  indexTypes : List IndexType
deriving DecidableEq, Repr

/-- AppliedFilters from types.ts: every field optional (absence means no
constraint).  Numeric fields are embedded as Nat (the source only ever
stores non-negative integers such as years 2024.. and months 1..12). -/
structure AppliedFilters where
  state : Option String := none
  district : Option String := none
  year : Option Nat := none
  month : Option Nat := none
  metricType : Option MetricType := none
  ageGroup : Option AgeGroup := none
  indexType : Option IndexType := none
deriving DecidableEq, Repr

/-- INITIAL_FILTERS from useFilters: the empty filter set. -/
def INITIAL_FILTERS : AppliedFilters := {}

/-- setStateFilter from useFilters: replaces state and clears district when
the new state differs from the previous one (strict inequality, matching
the JavaScript comparison of string-or-undefined values). -/
def setStateFilter (state : Option String) (prev : AppliedFilters) : AppliedFilters :=
  let newFilters : AppliedFilters := { prev with state := state }
  if state ≠ prev.state then { newFilters with district := none } else newFilters

/-- setDistrictFilter from useFilters: replaces only the district field. -/
def setDistrictFilter (district : Option String) (prev : AppliedFilters) : AppliedFilters :=
  { prev with district := district }

/-- setYearFilter from useFilters: replaces only the year field. -/
def setYearFilter (year : Option Nat) (prev : AppliedFilters) : AppliedFilters :=
  { prev with year := year }

/-- setMonthFilter from useFilters: replaces only the month field. -/
def setMonthFilter (month : Option Nat) (prev : AppliedFilters) : AppliedFilters :=
  { prev with month := month }

/-- setMetricTypeFilter from useFilters: replaces only the metricType field. -/
def setMetricTypeFilter (metricType : Option MetricType) (prev : AppliedFilters) : AppliedFilters :=
  { prev with metricType := metricType }

/-- setAgeGroupFilter from useFilters: replaces only the ageGroup field. -/
def setAgeGroupFilter (ageGroup : Option AgeGroup) (prev : AppliedFilters) : AppliedFilters :=
  { prev with ageGroup := ageGroup }

/-- setIndexTypeFilter from useFilters: replaces only the indexType field. -/
def setIndexTypeFilter (indexType : Option IndexType) (prev : AppliedFilters) : AppliedFilters :=
  { prev with indexType := indexType }

/-- One call to a setter of the useFilters hook, used to quantify over
arbitrary sequences of setter calls. -/
inductive FilterOp where
  | opState (v : Option String)
  | opDistrict (v : Option String)
  | opYear (v : Option Nat)
  | opMonth (v : Option Nat)
  | opMetricType (v : Option MetricType)
  | opAgeGroup (v : Option AgeGroup)
  | opIndexType (v : Option IndexType)
  | opSetAll (f : AppliedFilters)
  | opClear
deriving DecidableEq, Repr

/-- Apply one setter call to the current filter state. -/
def applyOp : FilterOp → AppliedFilters → AppliedFilters
  | .opState v, f => setStateFilter v f
  | .opDistrict v, f => setDistrictFilter v f
  | .opYear v, f => setYearFilter v f
  | .opMonth v, f => setMonthFilter v f
  | .opMetricType v, f => setMetricTypeFilter v f
  | .opAgeGroup v, f => setAgeGroupFilter v f
  | .opIndexType v, f => setIndexTypeFilter v f
  | .opSetAll nf, _ => nf
  | .opClear, _ => INITIAL_FILTERS

/-- Apply a sequence of setter calls, first element first. -/
def applyOps (ops : List FilterOp) (f : AppliedFilters) : AppliedFilters :=
  ops.foldl (fun s o => applyOp o s) f

/-- Uppercase hexadecimal digit, as the URLSearchParams serializer emits. -/
def hexDigit (n : Nat) : Char :=
  if n < 10 then Char.ofNat (48 + n) else Char.ofNat (55 + n)

/-- Percent-encoding of one UTF-8 byte, per the urlencoded serializer used
by URLSearchParams.toString: space becomes plus, unreserved bytes pass
through, every other byte becomes a percent escape. -/
def urlencodeByte (b : UInt8) : String :=
  let n := b.toNat
  if n = 32 then "+"
  else if (48 ≤ n ∧ n ≤ 57) ∨ (65 ≤ n ∧ n ≤ 90) ∨ (97 ≤ n ∧ n ≤ 122) ∨
          n = 42 ∨ n = 45 ∨ n = 46 ∨ n = 95 then
    String.singleton (Char.ofNat n)
  else
    "%" ++ String.singleton (hexDigit (n / 16)) ++ String.singleton (hexDigit (n % 16))

/-- Percent-encoding of a string over its UTF-8 bytes. -/
def urlencode (s : String) : String :=
  String.join ((s.toUTF8.data.toList).map urlencodeByte)

/-- One key-value pair of URLSearchParams.toString output. -/
def serializePair (p : String × String) : String :=
  urlencode p.1 ++ "=" ++ urlencode p.2

/-- URLSearchParams.toString: pairs joined with ampersands, in append
order; the empty parameter list yields the empty string. -/
def paramsToString : List (String × String) → String
  | [] => ""
  | [p] => serializePair p
  | p :: ps => serializePair p ++ "&" ++ paramsToString ps

/-- The conditional append of a string-valued filter field, embedding the
JavaScript truthiness test: undefined and the empty string are skipped. -/
def strParam (k : String) (o : Option String) : List (String × String) :=
  match o with
  | some s => if s = "" then [] else [(k, s)]
  | none => []

/-- The conditional append of a numeric filter field, embedding the
JavaScript truthiness test (undefined and 0 are skipped) and the decimal
toString serialization. -/
def natParam (k : String) (o : Option Nat) : List (String × String) :=
  match o with
  | some n => if n = 0 then [] else [(k, Nat.repr n)]
  | none => []

/-- The parameter list built by buildQueryString: seven conditional appends
in fixed source order, with the wire names state, district, year, month,
metricType, ageGroup, indexType. -/
def filterParams (f : AppliedFilters) : List (String × String) :=
  strParam "state" f.state ++
  strParam "district" f.district ++
  natParam "year" f.year ++
  natParam "month" f.month ++
  strParam "metricType" (f.metricType.map MetricType.toWire) ++
  strParam "ageGroup" (f.ageGroup.map AgeGroup.toWire) ++
  strParam "indexType" (f.indexType.map IndexType.toWire)

/-- buildQueryString from useFilters and aadhaarApi: serializes the current
filters and prefixes a question mark only when the serialized list is
non-empty (JavaScript truthiness of the string). -/
def buildQueryString (f : AppliedFilters) : String :=
  let queryString := paramsToString (filterParams f)
  if queryString = "" then "" else "?" ++ queryString

/-- The keys emitted by buildQueryString, in emission order. -/
def keysOf (f : AppliedFilters) : List String :=
  (filterParams f).map Prod.fst

/-- The fixed wire-name order of buildQueryString output. -/
def wireKeys : List String :=
  ["state", "district", "year", "month", "metricType", "ageGroup", "indexType"]

/-- JavaScript truthiness of an optional string: set and non-empty. -/
def strTruthy : Option String → Bool
  | none => false
  | some s => if s = "" then false else true

/-- JavaScript truthiness of an optional number: set and non-zero. -/
def natTruthy : Option Nat → Bool
  | none => false
  | some n => if n = 0 then false else true

/-- filteredDistricts from useFilters: empty when the catalog is not loaded,
the full district list when the state filter is falsy (unset or the empty
string), and otherwise the districts whose stateCode equals the selected
state. -/
def filteredDistricts (filterOptions : Option FilterOptions)
    (filters : AppliedFilters) : List DistrictOption :=
  match filterOptions with
  | none => []
  | some opts =>
    match filters.state with
    | none => opts.districts
    | some s => if s = "" then opts.districts
                else opts.districts.filter (fun d => d.stateCode == s)

/-- The hard-coded fallback catalog substituted by fetchOptions when the
metadata fetch fails: empty state and district lists, years 2024-2026,
the twelve months, and the three fixed enumerations. -/
def fallbackFilterOptions : FilterOptions where
  states := []
  districts := []
  years := [2024, 2025, 2026]
  months :=
    [⟨1, "January"⟩, ⟨2, "February"⟩, ⟨3, "March"⟩, ⟨4, "April"⟩,
     ⟨5, "May"⟩, ⟨6, "June"⟩, ⟨7, "July"⟩, ⟨8, "August"⟩,
     ⟨9, "September"⟩, ⟨10, "October"⟩, ⟨11, "November"⟩, ⟨12, "December"⟩]
  metricTypes := [.Enrolment, .Biometric, .Demographic]
  ageGroups := [.All, .A0to5, .A5to18, .A18to60, .A60plus]
  indexTypes := [.Demand, .Stress, .Gap, .CompositeRisk]

/-- The catalog-related state of the useFilters hook: filterOptions,
loadingOptions and optionsError. -/
structure OptionsState where
  filterOptions : Option FilterOptions
  loadingOptions : Bool
  optionsError : Option String
deriving DecidableEq, Repr

/-- The useState initial values of the catalog state: no options yet,
loading true, no error. -/
def initialOptionsState : OptionsState where
  filterOptions := none
  loadingOptions := true
  optionsError := none

/-- The synchronous prefix of fetchOptions, executed before the await:
loading is set true and any previous error is cleared. -/
def fetchOptionsStart (s : OptionsState) : OptionsState :=
  { s with loadingOptions := true, optionsError := none }

/-- The continuation of fetchOptions after the metadata fetch settles.  The
outcome of the fetchFilterMetadata collaborator is passed in as an Except
value (an error carries the message extracted from the thrown value).  On
success the options are stored; on failure the error message is recorded
and the fallback catalog is substituted; the finally clause sets loading
false either way. -/
def fetchOptionsSettle (result : Except String FilterOptions)
    (s : OptionsState) : OptionsState :=
  match result with
  | .ok options => { s with filterOptions := some options, loadingOptions := false }
  | .error msg =>
      { s with optionsError := some msg,
               filterOptions := some fallbackFilterOptions,
               loadingOptions := false }

/-- One complete run of fetchOptions for a given collaborator outcome. -/
def fetchOptions (result : Except String FilterOptions) (s : OptionsState) : OptionsState :=
  fetchOptionsSettle result (fetchOptionsStart s)

/-- SearchResult from types.ts, restricted to the fields the search effect
stores (the metadata map is irrelevant to the claims). -/
structure SearchResult where
  id : String
  type : String
  title : String
  subtitle : Option String := none
  status : Option String := none
deriving DecidableEq, Repr

/-- What the Header search effect does for one debounced query value:
either it clears the results without contacting the collaborator, or it
issues a search call with the query. -/
inductive SearchEffect where
  | cleared
  | searched (q : String)
deriving DecidableEq, Repr

/-- The Header state touched by the search effect. -/
structure HeaderSearchState where
  searchResults : List SearchResult
  showSearchResults : Bool
deriving DecidableEq, Repr

/-- The Header useEffect body on a change of the debounced query: below two
characters it clears the results and returns without calling the search
collaborator; otherwise it calls the collaborator with the query (the
asynchronous response handling is outside this step). -/
def searchDebounceStep (debouncedQuery : String) (s : HeaderSearchState) :
    SearchEffect × HeaderSearchState :=
  if debouncedQuery.length < 2 then
    (.cleared, { searchResults := [], showSearchResults := false })
  else
    (.searched debouncedQuery, s)

/-- Modelled from the spec: the useDebounce hook (src/hooks/useDebounce.ts
is not part of the provided sources; only its caller in Header.tsx is).
DebounceState per section 3 of the spec: the raw value, the stable output
value, and the pending timer deadline if a timer is running. -/
structure DebounceState (α : Type) where
  rawValue : α
  stableValue : α
  pendingDeadline : Option Nat
deriving Repr

/-- Modelled from the spec: at time t a pending timer whose deadline has
been reached fires, publishing the raw value as the stable output and
clearing the timer; otherwise nothing happens. -/
def fireIfDue {α : Type} (t : Nat) (s : DebounceState α) : DebounceState α :=
  match s.pendingDeadline with
  | some d => if d ≤ t then { s with stableValue := s.rawValue, pendingDeadline := none }
              else s
  | none => s

/-- Modelled from the spec: a change of the input value at time t first
lets an already-due timer fire, then stores the new raw value and
(re)starts the delay timer to fire at t plus the delay. -/
def setRaw {α : Type} (delayMs t : Nat) (v : α) (s : DebounceState α) : DebounceState α :=
  { fireIfDue t s with rawValue := v, pendingDeadline := some (t + delayMs) }

/-- Modelled from the spec: the controller starts with the initial value
stable and no timer pending. -/
def debounceInit {α : Type} (init : α) : DebounceState α :=
  ⟨init, init, none⟩

/-- Modelled from the spec: run the controller over a sequence of
timestamped value changes, earliest first. -/
def debounceRun {α : Type} (delayMs : Nat) (init : α)
    (events : List (Nat × α)) : DebounceState α :=
  events.foldl (fun s e => setRaw delayMs e.1 e.2 s) (debounceInit init)

/-- Modelled from the spec: the stable output observed at time bigT, after
letting any timer due by then fire. -/
def observedAt {α : Type} (delayMs : Nat) (init : α)
    (events : List (Nat × α)) (bigT : Nat) : α :=
  (fireIfDue bigT (debounceRun delayMs init events)).stableValue

/-- A burst per the spec: every change arrives strictly before the timer
started by the previous change would fire. -/
def burstChain {α : Type} (delayMs : Nat) (events : List (Nat × α)) : Prop :=
  List.Chain' (fun a b => b.1 < a.1 + delayMs) events

/-- A one-district catalog used as concrete input in counterexamples and
witnesses. -/
def catLucknow : FilterOptions where
  states := [⟨"UP", "Uttar Pradesh"⟩]
  districts := [⟨"LKO", "Lucknow", "UP"⟩]
  years := [2025]
  months := []
  metricTypes := []
  ageGroups := []
  indexTypes := []

/-- The last element of a list, or the given default when the list is
empty. -/
def lastOr {β : Type} (d : β) : List β → β
  | [] => d
  | x :: xs => lastOr x xs

/-! ## Theorems -/

theorem metricToWire_ne_blank (m : MetricType) : m.toWire ≠ "" := by
  cases m <;> decide

theorem ageToWire_ne_blank (a : AgeGroup) : a.toWire ≠ "" := by
  cases a <;> decide

theorem indexToWire_ne_blank (i : IndexType) : i.toWire ≠ "" := by
  cases i <;> decide

theorem strParam_fst (k : String) (o : Option String) :
    (strParam k o).map Prod.fst = if strTruthy o then [k] else [] := by
  cases o with
  | none => rfl
  | some s => by_cases h : s = "" <;> simp [strParam, strTruthy, h]

theorem natParam_fst (k : String) (o : Option Nat) :
    (natParam k o).map Prod.fst = if natTruthy o then [k] else [] := by
  cases o with
  | none => rfl
  | some n => by_cases h : n = 0 <;> simp [natParam, natTruthy, h]

theorem strParam_fst_map {α : Type} (k : String) (g : α → String) (o : Option α)
    (hg : ∀ a, g a ≠ "") :
    (strParam k (o.map g)).map Prod.fst = if o.isSome then [k] else [] := by
  cases o with
  | none => rfl
  | some a => simp [strParam, hg a]

theorem keysOf_eq (f : AppliedFilters) :
    keysOf f =
      (if strTruthy f.state then ["state"] else []) ++
      (if strTruthy f.district then ["district"] else []) ++
      (if natTruthy f.year then ["year"] else []) ++
      (if natTruthy f.month then ["month"] else []) ++
      (if f.metricType.isSome then ["metricType"] else []) ++
      (if f.ageGroup.isSome then ["ageGroup"] else []) ++
      (if f.indexType.isSome then ["indexType"] else []) := by
  simp only [keysOf, filterParams, List.map_append]
  rw [strParam_fst, strParam_fst, natParam_fst, natParam_fst,
      strParam_fst_map "metricType" MetricType.toWire f.metricType metricToWire_ne_blank,
      strParam_fst_map "ageGroup" AgeGroup.toWire f.ageGroup ageToWire_ne_blank,
      strParam_fst_map "indexType" IndexType.toWire f.indexType indexToWire_ne_blank]

theorem serializePair_length (p : String × String) : 1 ≤ (serializePair p).length := by
  simp only [serializePair, String.length_append]
  have h2 : ("=" : String).length = 1 := rfl
  omega

theorem paramsToString_cons_length (p : String × String) (ps : List (String × String)) :
    1 ≤ (paramsToString (p :: ps)).length := by
  cases ps with
  | nil => simpa [paramsToString] using serializePair_length p
  | cons q qs =>
    simp only [paramsToString, String.length_append]
    have h := serializePair_length p
    omega

theorem string_ne_blank_of_length {s : String} (h : 1 ≤ s.length) : s ≠ "" := by
  intro he
  subst he
  exact absurd h (by decide)

theorem paramsToString_cons_ne_blank (p : String × String) (ps : List (String × String)) :
    paramsToString (p :: ps) ≠ "" :=
  string_ne_blank_of_length (paramsToString_cons_length p ps)

theorem buildQueryString_blank_iff (f : AppliedFilters) :
    buildQueryString f = "" ↔ filterParams f = [] := by
  constructor
  · intro h
    cases hfp : filterParams f with
    | nil => rfl
    | cons p ps =>
      exfalso
      simp only [buildQueryString, hfp] at h
      rw [if_neg (paramsToString_cons_ne_blank p ps)] at h
      have hlen := paramsToString_cons_length p ps
      have hz : ("?" ++ paramsToString (p :: ps)).length = 0 := by rw [h]; rfl
      rw [String.length_append] at hz
      omega
  · intro h
    simp [buildQueryString, h, paramsToString]

theorem buildQueryString_of_params_ne (f : AppliedFilters) (h : filterParams f ≠ []) :
    buildQueryString f = "?" ++ paramsToString (filterParams f) := by
  cases hfp : filterParams f with
  | nil => exact absurd hfp h
  | cons p ps =>
    simp only [buildQueryString, hfp]
    rw [if_neg (paramsToString_cons_ne_blank p ps)]

/-- C1: after any sequence of setter calls, a setRegion call whose value
differs from the current region yields filters whose district is unset and
whose state is the new value. -/
theorem setStateFilter_clears_district_of_ne (ops : List FilterOp)
    (f0 : AppliedFilters) (x : Option String)
    (h : x ≠ (applyOps ops f0).state) :
    (setStateFilter x (applyOps ops f0)).district = none ∧
    (setStateFilter x (applyOps ops f0)).state = x := by
  constructor <;> simp [setStateFilter, h]

/-- Witness for C1, Scenario A of the spec: set UP, choose district UP-D1,
then set BR; the district ends unset. -/
theorem setStateFilter_clears_district_of_ne_witness :
    (setStateFilter (some "BR")
      (applyOps [FilterOp.opState (some "UP"), FilterOp.opDistrict (some "UP-D1")]
        INITIAL_FILTERS)).district = none :=
  (setStateFilter_clears_district_of_ne
    [FilterOp.opState (some "UP"), FilterOp.opDistrict (some "UP-D1")]
    INITIAL_FILTERS (some "BR") (by decide)).1

/-- C10: a setRegion call whose value equals the current region (also the
unset-to-unset case) leaves the filter state unchanged, district
included. -/
theorem setStateFilter_same_state_id (prev : AppliedFilters) (x : Option String)
    (h : x = prev.state) : setStateFilter x prev = prev := by
  subst h
  cases prev
  simp [setStateFilter]

/-- Witness for C10: re-setting the already selected state keeps the chosen
district. -/
theorem setStateFilter_same_state_id_witness :
    setStateFilter (some "UP")
      { state := some "UP", district := some "LKO" } =
      ({ state := some "UP", district := some "LKO" } : AppliedFilters) :=
  setStateFilter_same_state_id { state := some "UP", district := some "LKO" }
    (some "UP") rfl

/-- C7: each of the six single-field setters replaces exactly its own field
of AppliedFilters and leaves every other field unchanged. -/
theorem setters_frame (f : AppliedFilters) (d : Option String) (y mo : Option Nat)
    (mt : Option MetricType) (ag : Option AgeGroup) (it : Option IndexType) :
    ((setDistrictFilter d f).district = d ∧
     (setDistrictFilter d f).state = f.state ∧
     (setDistrictFilter d f).year = f.year ∧
     (setDistrictFilter d f).month = f.month ∧
     (setDistrictFilter d f).metricType = f.metricType ∧
     (setDistrictFilter d f).ageGroup = f.ageGroup ∧
     (setDistrictFilter d f).indexType = f.indexType) ∧
    ((setYearFilter y f).year = y ∧
     (setYearFilter y f).state = f.state ∧
     (setYearFilter y f).district = f.district ∧
     (setYearFilter y f).month = f.month ∧
     (setYearFilter y f).metricType = f.metricType ∧
     (setYearFilter y f).ageGroup = f.ageGroup ∧
     (setYearFilter y f).indexType = f.indexType) ∧
    ((setMonthFilter mo f).month = mo ∧
     (setMonthFilter mo f).state = f.state ∧
     (setMonthFilter mo f).district = f.district ∧
     (setMonthFilter mo f).year = f.year ∧
     (setMonthFilter mo f).metricType = f.metricType ∧
     (setMonthFilter mo f).ageGroup = f.ageGroup ∧
     (setMonthFilter mo f).indexType = f.indexType) ∧
    ((setMetricTypeFilter mt f).metricType = mt ∧
     (setMetricTypeFilter mt f).state = f.state ∧
     (setMetricTypeFilter mt f).district = f.district ∧
     (setMetricTypeFilter mt f).year = f.year ∧
     (setMetricTypeFilter mt f).month = f.month ∧
     (setMetricTypeFilter mt f).ageGroup = f.ageGroup ∧
     (setMetricTypeFilter mt f).indexType = f.indexType) ∧
    ((setAgeGroupFilter ag f).ageGroup = ag ∧
     (setAgeGroupFilter ag f).state = f.state ∧
     (setAgeGroupFilter ag f).district = f.district ∧
     (setAgeGroupFilter ag f).year = f.year ∧
     (setAgeGroupFilter ag f).month = f.month ∧
     (setAgeGroupFilter ag f).metricType = f.metricType ∧
     (setAgeGroupFilter ag f).indexType = f.indexType) ∧
    ((setIndexTypeFilter it f).indexType = it ∧
     (setIndexTypeFilter it f).state = f.state ∧
     (setIndexTypeFilter it f).district = f.district ∧
     (setIndexTypeFilter it f).year = f.year ∧
     (setIndexTypeFilter it f).month = f.month ∧
     (setIndexTypeFilter it f).metricType = f.metricType ∧
     (setIndexTypeFilter it f).ageGroup = f.ageGroup) := by
  refine ⟨?_, ?_, ?_, ?_, ?_, ?_⟩ <;> exact ⟨rfl, rfl, rfl, rfl, rfl, rfl, rfl⟩

/-- C5: on metadata-fetch failure fetchOptions resolves with the hard-coded
fallback catalog: non-empty years, exactly twelve months, the three fixed
enumerations, empty state and district lists; the loading flag is true
during the call and false on completion for success and failure alike. -/
theorem fetchOptions_fallback (s : OptionsState) (msg : String) (opts : FilterOptions) :
    (fetchOptionsStart s).loadingOptions = true ∧
    (fetchOptions (Except.error msg) s).loadingOptions = false ∧
    (fetchOptions (Except.ok opts) s).loadingOptions = false ∧
    (fetchOptions (Except.error msg) s).filterOptions = some fallbackFilterOptions ∧
    fallbackFilterOptions.years ≠ [] ∧
    fallbackFilterOptions.months.length = 12 ∧
    fallbackFilterOptions.metricTypes = [.Enrolment, .Biometric, .Demographic] ∧
    fallbackFilterOptions.ageGroups = [.All, .A0to5, .A5to18, .A18to60, .A60plus] ∧
    fallbackFilterOptions.indexTypes = [.Demand, .Stress, .Gap, .CompositeRisk] ∧
    fallbackFilterOptions.states = [] ∧
    fallbackFilterOptions.districts = [] :=
  ⟨rfl, rfl, rfl, rfl, by decide, rfl, rfl, rfl, rfl, rfl, rfl⟩

/-- C4 counterexample: after a failed metadata fetch the fallback catalog
is in place, yet the recorded failure message is still set, not cleared. -/
theorem fetchOptions_error_not_cleared_cex :
    (fetchOptions (Except.error "network error") initialOptionsState).filterOptions
        = some fallbackFilterOptions ∧
    (fetchOptions (Except.error "network error") initialOptionsState).optionsError
        = some "network error" :=
  ⟨rfl, rfl⟩

/-- C4 amended: fetchOptions records the failure message and the message
remains set after the fallback catalog is installed; it is cleared only by
the synchronous start of the next load attempt. -/
theorem fetchOptions_error_retained (s : OptionsState) (msg : String) :
    (fetchOptions (Except.error msg) s).optionsError = some msg ∧
    (fetchOptions (Except.error msg) s).filterOptions = some fallbackFilterOptions ∧
    (fetchOptionsStart s).optionsError = none :=
  ⟨rfl, rfl, rfl⟩

/-- C8: the Header search effect never calls the search collaborator when
the debounced value is shorter than two characters and clears the results
instead; the collaborator is called exactly when the debounced value has
at least two characters. -/
theorem searchDebounceStep_threshold (q : String) (s : HeaderSearchState) :
    (q.length < 2 →
      (searchDebounceStep q s).1 = SearchEffect.cleared ∧
      (searchDebounceStep q s).2.searchResults = [] ∧
      (searchDebounceStep q s).2.showSearchResults = false) ∧
    ((searchDebounceStep q s).1 = SearchEffect.searched q ↔ 2 ≤ q.length) := by
  constructor
  · intro h
    simp [searchDebounceStep, h]
  · by_cases h : q.length < 2
    · simp only [searchDebounceStep, if_pos h]
      constructor
      · intro hc
        exact absurd hc (by simp)
      · intro hc
        omega
    · simp [searchDebounceStep, h]
      omega

/-- Witness for C8: a one-letter query clears the results, a two-letter
query triggers the collaborator call. -/
theorem searchDebounceStep_threshold_witness :
    (searchDebounceStep "a"
      ⟨[⟨"1", "state", "Uttar Pradesh", none, none⟩], true⟩).2.searchResults = [] ∧
    (searchDebounceStep "up" ⟨[], false⟩).1 = SearchEffect.searched "up" :=
  ⟨((searchDebounceStep_threshold "a"
      ⟨[⟨"1", "state", "Uttar Pradesh", none, none⟩], true⟩).1 (by decide)).2.1,
   (searchDebounceStep_threshold "up" ⟨[], false⟩).2.mpr (by decide)⟩

/-- C2 counterexample: the filter set whose state is the empty string has a
set field, yet buildQueryString emits no parameter for it and returns the
empty string instead of a question-mark-prefixed list: the JavaScript
truthiness test skips set-but-falsy fields. -/
theorem buildQueryString_truthiness_cex :
    ({ state := some "" } : AppliedFilters).state ≠ none ∧
    buildQueryString { state := some "" } = "" :=
  ⟨by decide, by decide⟩

/-- C2 amended: buildQueryString emits a parameter for a field exactly when
the field is set to a truthy value (non-empty string, non-zero number), in
the fixed source order; numeric fields serialize as decimal text; the
result is empty exactly when no parameter is emitted and is the
question-mark-prefixed pair list otherwise; the empty AppliedFilters
yields the empty string. -/
theorem buildQueryString_emits_truthy (f : AppliedFilters) :
    keysOf f =
      (if strTruthy f.state then ["state"] else []) ++
      (if strTruthy f.district then ["district"] else []) ++
      (if natTruthy f.year then ["year"] else []) ++
      (if natTruthy f.month then ["month"] else []) ++
      (if f.metricType.isSome then ["metricType"] else []) ++
      (if f.ageGroup.isSome then ["ageGroup"] else []) ++
      (if f.indexType.isSome then ["indexType"] else []) ∧
    (buildQueryString f = "" ↔ filterParams f = []) ∧
    (filterParams f ≠ [] → buildQueryString f = "?" ++ paramsToString (filterParams f)) ∧
    (∀ y, f.year = some y → y ≠ 0 → ("year", Nat.repr y) ∈ filterParams f) ∧
    (∀ m, f.month = some m → m ≠ 0 → ("month", Nat.repr m) ∈ filterParams f) ∧
    buildQueryString {} = "" := by
  refine ⟨keysOf_eq f, buildQueryString_blank_iff f,
          buildQueryString_of_params_ne f, ?_, ?_, by decide⟩
  · intro y hy h0
    simp [filterParams, natParam, hy, h0]
  · intro m hm h0
    simp [filterParams, natParam, hm, h0]

/-- Witness for C2 amended: a set non-zero year is emitted as a decimal
year parameter. -/
theorem buildQueryString_emits_truthy_witness :
    ("year", Nat.repr 2025) ∈ filterParams { year := some 2025 } :=
  (buildQueryString_emits_truthy { year := some 2025 }).2.2.2.1 2025 rfl (by decide)

theorem ite_singleton_sublist {β : Type} (c : Prop) [Decidable c] (a : β) :
    List.Sublist (if c then [a] else []) [a] := by
  split
  · exact List.Sublist.refl [a]
  · exact List.nil_sublist [a]

/-- C3: buildQueryString is deterministic, its emitted keys always appear
in the fixed wire order state, district, year, month, metricType,
ageGroup, indexType, and the region and sub-region selections are emitted
under the wire names state and district. -/
theorem buildQueryString_key_order (f : AppliedFilters) :
    buildQueryString f = buildQueryString f ∧
    List.Sublist (keysOf f) wireKeys ∧
    (∀ s, f.state = some s → s ≠ "" → ("state", s) ∈ filterParams f) ∧
    (∀ d, f.district = some d → d ≠ "" → ("district", d) ∈ filterParams f) := by
  refine ⟨rfl, ?_, ?_, ?_⟩
  · rw [keysOf_eq]
    show List.Sublist _
      ((((((["state"] ++ ["district"]) ++ ["year"]) ++ ["month"]) ++
        ["metricType"]) ++ ["ageGroup"]) ++ ["indexType"])
    exact ((((((ite_singleton_sublist _ _).append
      (ite_singleton_sublist _ _)).append
      (ite_singleton_sublist _ _)).append
      (ite_singleton_sublist _ _)).append
      (ite_singleton_sublist _ _)).append
      (ite_singleton_sublist _ _)).append
      (ite_singleton_sublist _ _)
  · intro s hs hne
    simp [filterParams, strParam, hs, hne]
  · intro d hd hne
    simp [filterParams, strParam, hd, hne]

/-- Witness for C3: state and district selections appear under the wire
names state and district. -/
theorem buildQueryString_key_order_witness :
    ("state", "UP") ∈ filterParams { state := some "UP", district := some "LKO" } ∧
    ("district", "LKO") ∈ filterParams { state := some "UP", district := some "LKO" } :=
  ⟨(buildQueryString_key_order { state := some "UP", district := some "LKO" }).2.2.1
      "UP" rfl (by decide),
   (buildQueryString_key_order { state := some "UP", district := some "LKO" }).2.2.2
      "LKO" rfl (by decide)⟩

/-- C6 counterexample: with the state filter set to the empty string the
source returns the full district list, although the subset of districts
whose stateCode equals the selected value is empty; the returned district
does not carry the selected stateCode. -/
theorem filteredDistricts_truthiness_cex :
    ({ state := some "" } : AppliedFilters).state ≠ none ∧
    filteredDistricts (some catLucknow) { state := some "" } = catLucknow.districts ∧
    catLucknow.districts.filter (fun d => d.stateCode == "") = [] ∧
    ¬ (∀ d ∈ filteredDistricts (some catLucknow) { state := some "" },
        d.stateCode = "") :=
  ⟨by decide, by decide, by decide, by decide⟩

/-- C6 amended: filteredDistricts returns the empty list when the catalog
is not loaded, the full district list when the state filter is unset or
set to the empty string, and exactly the districts whose stateCode equals
the selected state when it is set to a non-empty value, in which case
every returned district carries that stateCode. -/
theorem filteredDistricts_spec (c : FilterOptions) (fl : AppliedFilters) (s : String) :
    filteredDistricts none fl = [] ∧
    filteredDistricts (some c) { fl with state := none } = c.districts ∧
    filteredDistricts (some c) { fl with state := some "" } = c.districts ∧
    (fl.state = some s → s ≠ "" →
      filteredDistricts (some c) fl = c.districts.filter (fun d => d.stateCode == s) ∧
      ∀ d ∈ filteredDistricts (some c) fl, d.stateCode = s) := by
  refine ⟨rfl, rfl, by simp [filteredDistricts], ?_⟩
  intro hs hne
  constructor
  · simp [filteredDistricts, hs, hne]
  · intro d hd
    simp [filteredDistricts, hs, hne, List.mem_filter] at hd
    exact hd.2

/-- Witness for C6 amended: selecting UP narrows the catalog to its UP
districts. -/
theorem filteredDistricts_spec_witness :
    filteredDistricts (some catLucknow) { state := some "UP" } =
      [⟨"LKO", "Lucknow", "UP"⟩] := by
  have h := (filteredDistricts_spec catLucknow { state := some "UP" } "UP").2.2.2
    rfl (by decide)
  rw [h.1]
  decide

theorem lastOr_append_singleton {β : Type} (l : List β) (a d : β) :
    lastOr d (l ++ [a]) = a := by
  induction l generalizing d with
  | nil => rfl
  | cons x xs ih => exact ih x

theorem debounce_burst_fold {α : Type} (delayMs : Nat) (init : α) :
    ∀ (l : List (Nat × α)) (t : Nat) (v : α),
      List.Chain' (fun a b => b.1 < a.1 + delayMs) ((t, v) :: l) →
      List.foldl (fun s e => setRaw delayMs e.1 e.2 s)
          ⟨v, init, some (t + delayMs)⟩ l =
        ⟨(lastOr (t, v) l).2, init, some ((lastOr (t, v) l).1 + delayMs)⟩ := by
  intro l
  induction l with
  | nil => intro t v hc; rfl
  | cons e l ih =>
    intro t v hc
    rcases e with ⟨t2, v2⟩
    have h12 : t2 < t + delayMs := (List.chain'_cons.mp hc).1
    have hrest := (List.chain'_cons.mp hc).2
    have hn : ¬ (t + delayMs ≤ t2) := by omega
    have hstep : setRaw delayMs t2 v2
        (⟨v, init, some (t + delayMs)⟩ : DebounceState α)
        = ⟨v2, init, some (t2 + delayMs)⟩ := by
      simp [setRaw, fireIfDue, hn]
    simp only [List.foldl_cons, hstep]
    exact ih t2 v2 hrest

/-- C9 (modelled from the spec, the useDebounce source file being absent):
for a burst of value changes fed to a debounced controller with delay D,
once at least D elapses after the last change the observed output equals
the last value of the burst; and when every change arrives before the
timer started by the previous change fires, the timer is restarted to the
last change plus D and the observed output is only ever the initial value
or the last value, never an intermediate one. -/
theorem debounce_stabilizes {α : Type} (delayMs : Nat) (init : α)
    (es : List (Nat × α)) (tn : Nat) (vn : α) :
    (∀ bigT, tn + delayMs ≤ bigT →
       observedAt delayMs init (es ++ [(tn, vn)]) bigT = vn) ∧
    (burstChain delayMs (es ++ [(tn, vn)]) →
       (debounceRun delayMs init (es ++ [(tn, vn)])).pendingDeadline
           = some (tn + delayMs) ∧
       ∀ bigT, observedAt delayMs init (es ++ [(tn, vn)]) bigT = init ∨
               observedAt delayMs init (es ++ [(tn, vn)]) bigT = vn) := by
  constructor
  · intro bigT hT
    have hrun : debounceRun delayMs init (es ++ [(tn, vn)])
        = setRaw delayMs tn vn (debounceRun delayMs init es) := by
      simp [debounceRun, List.foldl_append]
    simp [observedAt, hrun, setRaw, fireIfDue, hT]
  · intro hb
    cases hes : es ++ [(tn, vn)] with
    | nil => exact absurd hes (by simp)
    | cons e rest =>
      rcases e with ⟨t1, v1⟩
      have hb2 : List.Chain' (fun a b => b.1 < a.1 + delayMs) ((t1, v1) :: rest) :=
        hes ▸ hb
      have hlast : lastOr (t1, v1) rest = (tn, vn) := by
        have h0 : lastOr (t1, v1) ((t1, v1) :: rest) = lastOr (t1, v1) rest := rfl
        rw [← h0, ← hes]
        exact lastOr_append_singleton es (tn, vn) (t1, v1)
      have hrun2 : debounceRun delayMs init ((t1, v1) :: rest)
          = ⟨vn, init, some (tn + delayMs)⟩ := by
        show List.foldl _ (debounceInit init) ((t1, v1) :: rest) = _
        rw [List.foldl_cons]
        have h1 : setRaw delayMs t1 v1 (debounceInit init)
            = ⟨v1, init, some (t1 + delayMs)⟩ := rfl
        rw [h1, debounce_burst_fold delayMs init rest t1 v1 hb2, hlast]
      refine ⟨by rw [hrun2], ?_⟩
      intro bigT
      by_cases hT : tn + delayMs ≤ bigT
      · right
        simp [observedAt, hrun2, fireIfDue, hT]
      · left
        simp [observedAt, hrun2, fireIfDue, hT]

/-- Witness for C9, Scenario D of the spec: changes at 0, 100 and 250 with
delay 300; the output observed at 550 is the final value, and at 400 it is
still either the initial or the final value, never an intermediate one. -/
theorem debounce_stabilizes_witness :
    observedAt 300 "" [(0, "a"), (100, "ab"), (250, "abc")] 550 = "abc" ∧
    (observedAt 300 "" [(0, "a"), (100, "ab"), (250, "abc")] 400 = "" ∨
     observedAt 300 "" [(0, "a"), (100, "ab"), (250, "abc")] 400 = "abc") :=
  ⟨(debounce_stabilizes 300 "" [(0, "a"), (100, "ab")] 250 "abc").1 550 (by decide),
   ((debounce_stabilizes 300 "" [(0, "a"), (100, "ab")] 250 "abc").2
      (by unfold burstChain; simp [List.chain'_cons])).2 400⟩
